import Mathlib

/-!
Verification of the recipe-chatbot backend helper (`backend/utils.py`).

The module holds a fixed system prompt, resolves a model identifier from the
environment, and wraps a single call to the external completion provider
(`litellm.completion`).  We embed the module shallowly: Python dicts with
"role"/"content" keys become the `Message` structure, the environment becomes a
function `String → Option String`, the provider becomes a function parameter
returning `Except`, and Python exceptions become the `Except` error track.
-/

/-- A conversation message: a Python dict with "role" and "content" keys. -/
structure Message where
  role : String
  content : String
deriving DecidableEq, Repr

/-- The fixed system prompt, `SYSTEM_PROMPT` in `backend/utils.py`. -/
def SYSTEM_PROMPT : String :=
  "You are a friendly and knowledgeable culinary assistant specializing in providing " ++
  "clear, practical, and delicious recipes for home cooks of all skill levels.\n\n" ++
  "## Your Core Responsibilities:\n" ++
  "- Always provide complete, detailed recipes with precise measurements using BOTH metric and imperial units\n" ++
  "- Include clear, step-by-step instructions that are easy to follow\n" ++
  "- Highlight steps that can be done in parallel to help optimize time saved\n" ++
  "- Suggest appropriate serving sizes (default to 2 people if unspecified)\n" ++
  "- Offer creative variations and common ingredient substitutions when helpful\n" ++
  "- Provide recipes that use readily available ingredients, or suggest alternatives for rare items\n\n" ++
  "## Response Guidelines:\n" ++
  "- Present only ONE complete recipe per response\n" ++
  "- Never ask follow-up questions - provide a complete answer based on the request\n" ++
  "- If ingredients aren\x27t specified, assume basic pantry staples are available\n" ++
  "- Feel free to creatively adapt or combine elements from known recipes when appropriate\n" ++
  "- Clearly indicate if you\x27re suggesting a novel combination or adaptation\n\n" ++
  "## Safety & Limitations:\n" ++
  "- If asked for unsafe, unethical, or harmful recipes, politely decline without being preachy\n" ++
  "- Never use offensive or derogatory language\n" ++
  "- Focus on food safety best practices in your instructions\n\n" ++
  "## Required Output Format:\n" ++
  "Structure ALL recipe responses using this exact Markdown format:\n\n" ++
  "## [Recipe Name]\n\n" ++
  "[Brief, enticing 1-3 sentence description]\n\n" ++
  "### Ingredients\n" ++
  "* [ingredient with precise measurement in metric and imperial units]\n" ++
  "* [ingredient with precise measurement in metric and imperial units]\n\n" ++
  "### Instructions\n" ++
  "1. [detailed step]\n" ++
  "2. [detailed step]\n\n" ++
  "3. [detailed step while step 2 is cooking]\n\n" ++
  "### Tips (optional)\n" ++
  "* [helpful cooking tips or variations]\n\n" ++
  "Always follow this structure and assume that every interaction is with a top-paying client."

/-- The default system message prepended by `get_agent_response`:
`{"role": "system", "content": SYSTEM_PROMPT}`. -/
def system_message : Message :=
  Message.mk "system" SYSTEM_PROMPT

/-- `MODEL_NAME = os.environ.get("MODEL_NAME", "gpt-4o-mini")`, with the process
environment abstracted as a lookup function. -/
def MODEL_NAME (env : String → Option String) : String :=
  (env "MODEL_NAME").getD "gpt-4o-mini"

/-- The "message" object inside a provider choice; its "content" entry may be
absent or `None` (modelled as `none`). -/
structure CompletionMessage where
  content : Option String
deriving DecidableEq, Repr

/-- One element of the "choices" array of the provider reply. -/
structure CompletionChoice where
  message : CompletionMessage
deriving DecidableEq, Repr

/-- The provider reply object returned by `litellm.completion`. -/
structure ModelResponse where
  choices : List CompletionChoice
deriving DecidableEq, Repr

/-- The ways `get_agent_response` can raise, with `ε` the type of errors the
provider itself raises.  `provider e` models an exception raised from inside
`litellm.completion` (network, auth, invalid model, quota); it carries the
diagnostic `e` coming from the provider.  `malformedResponse` models the IndexError /
AttributeError raised by `completion["choices"][0]["message"]["content"].strip()`
when the choices array is empty or the content is missing. -/
inductive AgentError (ε : Type) where
  | provider (e : ε)
  | malformedResponse
deriving DecidableEq, Repr

/-- The condition of the `if` on line 78 of `backend/utils.py`:
`not messages or messages[0]["role"] != "system"`. -/
def needs_system_prompt (messages : List Message) : Bool :=
  match messages with
  | [] => true
  | m :: _ => m.role ≠ "system"

/-- The local `current_messages` of `get_agent_response` (lines 77-81):
`[{"role": "system", "content": SYSTEM_PROMPT}] + messages` when the history is
empty or does not start with a system message, `messages` itself otherwise. -/
def current_messages (messages : List Message) : List Message :=
  if needs_system_prompt messages then system_message :: messages else messages

/-- The Python `str.strip()` with no argument, as used on the reply content:
remove leading and trailing whitespace.  Defined structurally over the
character list so that it evaluates. -/
def py_strip (s : String) : String :=
  String.mk
    (((s.data.dropWhile Char.isWhitespace).reverse.dropWhile
        Char.isWhitespace).reverse)

/-- Lines 83-96 of `backend/utils.py` after the provider call: extract
`completion["choices"][0]["message"]["content"]`, strip it, and append the
assistant reply to `current`.  A provider exception propagates; a missing
choice or missing content raises (modelled as `malformedResponse`). -/
def handle_completion {ε : Type} (current : List Message)
    (result : Except ε ModelResponse) : Except (AgentError ε) (List Message) :=
  match result with
  | Except.error e => Except.error (AgentError.provider e)
  | Except.ok completion =>
    match completion.choices with
    | [] => Except.error AgentError.malformedResponse
    | choice :: _ =>
      match choice.message.content with
      | none => Except.error AgentError.malformedResponse
      | some c => Except.ok (current ++ [Message.mk "assistant" (py_strip c)])

/-- `get_agent_response` from `backend/utils.py`, with `litellm.completion`
abstracted as the function argument `llm_completion` (taking the model name and
the message list) and the environment as `env`.  It normalizes the history,
makes exactly one provider call, and appends the stripped assistant reply. -/
def get_agent_response {ε : Type}
    (llm_completion : String → List Message → Except ε ModelResponse)
    (env : String → Option String)
    (messages : List Message) : Except (AgentError ε) (List Message) :=
  let current := current_messages messages
  handle_completion current (llm_completion (MODEL_NAME env) current)

/-- Whether a result of `get_agent_response` is an error that propagates the
diagnostic of the provider (as opposed to succeeding, or failing with the
extraction error for a malformed response). -/
def carries_provider_error {ε : Type} {α : Type} : Except (AgentError ε) α → Bool :=
  fun r =>
    match r with
    | Except.error (AgentError.provider _) => true
    | _ => false

example :
    current_messages [] = [system_message] := rfl

example :
    current_messages [Message.mk "user" "hi"] =
      [system_message, Message.mk "user" "hi"] := rfl

example :
    current_messages [Message.mk "system" "Custom", Message.mk "user" "hi"] =
      [Message.mk "system" "Custom", Message.mk "user" "hi"] := rfl

/-- A tiny model of the Python object store for message lists: a store of
allocated lists, addressed by index.  Python `+` on lists allocates a fresh
list; assignment copies only the reference.  `get_agent_response` uses `+`
twice and never calls a mutating method, which the heap-level embedding below
makes explicit. -/
structure PyHeap where
  lists : List (List Message)
deriving DecidableEq, Repr

/-- Dereference a list object. -/
def PyHeap.get (h : PyHeap) (r : Nat) : List Message :=
  h.lists.getD r []

/-- Allocate a fresh list object (what Python `+` does) and return its
reference. -/
def PyHeap.alloc (h : PyHeap) (xs : List Message) : PyHeap × Nat :=
  (PyHeap.mk (h.lists ++ [xs]), h.lists.length)

/-- `get_agent_response` at the level of list objects: the caller passes a
reference `messagesRef` into the heap `h`.  Lines 77-81 either allocate
`[system_message] + messages` (Python `+` builds a new list) or alias
`current_messages = messages`; lines 92-95 allocate `current + [reply]`.
No existing list object is ever written through. -/
def get_agent_response_heap {ε : Type}
    (llm_completion : String → List Message → Except ε ModelResponse)
    (env : String → Option String)
    (h : PyHeap) (messagesRef : Nat) : Except (AgentError ε) (PyHeap × Nat) :=
  let messages := h.get messagesRef
  let allocated :=
    if needs_system_prompt messages
      then h.alloc (system_message :: messages)
      else (h, messagesRef)
  let h1 := allocated.1
  let currentRef := allocated.2
  let current := h1.get currentRef
  match llm_completion (MODEL_NAME env) current with
  | Except.error e => Except.error (AgentError.provider e)
  | Except.ok completion =>
    match completion.choices with
    | [] => Except.error AgentError.malformedResponse
    | choice :: _ =>
      match choice.message.content with
      | none => Except.error AgentError.malformedResponse
      | some c =>
        let final := h1.alloc (current ++ [Message.mk "assistant" (py_strip c)])
        Except.ok final

/-- Allocation never disturbs an existing object: dereferencing a previously
valid reference after `alloc` yields the same list. -/
theorem PyHeap.get_alloc_of_lt (h : PyHeap) (xs : List Message) (r : Nat)
    (hr : r < h.lists.length) : (h.alloc xs).1.get r = h.get r := by
  simp only [PyHeap.alloc, PyHeap.get]
  exact List.getD_append _ _ _ _ hr


/-- A concrete provider that always raises, used to instantiate theorems. -/
def failing_provider : String → List Message → Except String ModelResponse :=
  fun _ _ => Except.error "connection error"

/-- A concrete provider that always replies with a fixed padded text. -/
def ok_provider : String → List Message → Except String ModelResponse :=
  fun _ _ =>
    Except.ok (ModelResponse.mk
      [CompletionChoice.mk (CompletionMessage.mk (some "  Pasta recipe...  "))])

/-- An environment with no variables set. -/
def empty_env : String → Option String :=
  fun _ => none

/-- A concrete user message used to instantiate theorems. -/
def eggs_message : Message :=
  Message.mk "user" "What can I make with eggs?"

/-- C1: for every conversation that is empty or whose first message role is not
"system", `get_agent_response` sends to the provider exactly one prepended
default system message followed by the input conversation in its original
order, and its result is computed from the provider call on that sequence. -/
theorem C1_default_prompt_prepended {ε : Type}
    (llm_completion : String → List Message → Except ε ModelResponse)
    (env : String → Option String) (messages : List Message)
    (h : messages = [] ∨ ∃ m ms, messages = m :: ms ∧ m.role ≠ "system") :
    current_messages messages = system_message :: messages ∧
    get_agent_response llm_completion env messages =
      handle_completion (system_message :: messages)
        (llm_completion (MODEL_NAME env) (system_message :: messages)) := by
  have hc : current_messages messages = system_message :: messages := by
    rcases h with rfl | ⟨m, ms, rfl, hm⟩
    · rfl
    · simp [current_messages, needs_system_prompt, hm]
  exact ⟨hc, by rw [get_agent_response, hc]⟩

/-- Witness for C1 at the conversation `[eggs_message]`, whose first role is
"user". -/
theorem C1_default_prompt_prepended_witness :
    current_messages [eggs_message] = system_message :: [eggs_message] :=
  (C1_default_prompt_prepended failing_provider empty_env [eggs_message]
    (Or.inr ⟨eggs_message, [], rfl, by decide⟩)).1

/-- C2: for every non-empty conversation whose first message has role "system",
`get_agent_response` sends exactly the input conversation to the provider,
unmodified, and its result is computed from the provider call on that exact
sequence. -/
theorem C2_system_first_sent_unchanged {ε : Type}
    (llm_completion : String → List Message → Except ε ModelResponse)
    (env : String → Option String) (messages : List Message)
    (h : ∃ m ms, messages = m :: ms ∧ m.role = "system") :
    current_messages messages = messages ∧
    get_agent_response llm_completion env messages =
      handle_completion messages (llm_completion (MODEL_NAME env) messages) := by
  obtain ⟨m, ms, rfl, hm⟩ := h
  have hc : current_messages (m :: ms) = m :: ms := by
    simp [current_messages, needs_system_prompt, hm]
  exact ⟨hc, by rw [get_agent_response, hc]⟩

/-- Witness for C2 at a conversation starting with a custom system prompt. -/
theorem C2_system_first_sent_unchanged_witness :
    current_messages [Message.mk "system" "Custom prompt", Message.mk "user" "Hi"] =
      [Message.mk "system" "Custom prompt", Message.mk "user" "Hi"] :=
  (C2_system_first_sent_unchanged failing_provider empty_env
    [Message.mk "system" "Custom prompt", Message.mk "user" "Hi"]
    ⟨Message.mk "system" "Custom prompt", [Message.mk "user" "Hi"], rfl, rfl⟩).1

/-- C3: for every conversation and every successful provider reply (an `ok`
response with a first choice carrying content), the returned sequence is the
sent sequence with exactly one message appended: role "assistant", content the
reply stripped of leading and trailing whitespace; so the returned length is
the sent length plus one. -/
theorem C3_appends_trimmed_reply {ε : Type}
    (llm_completion : String → List Message → Except ε ModelResponse)
    (env : String → Option String) (messages : List Message)
    (completion : ModelResponse) (choice : CompletionChoice)
    (rest : List CompletionChoice) (c : String)
    (hok : llm_completion (MODEL_NAME env) (current_messages messages) =
      Except.ok completion)
    (hchoices : completion.choices = choice :: rest)
    (hcontent : choice.message.content = some c) :
    get_agent_response llm_completion env messages =
      Except.ok (current_messages messages ++ [Message.mk "assistant" (py_strip c)]) ∧
    (current_messages messages ++ [Message.mk "assistant" (py_strip c)]).length =
      (current_messages messages).length + 1 := by
  refine ⟨?_, by simp⟩
  rw [get_agent_response, hok]
  simp [handle_completion, hchoices, hcontent]

/-- Witness for C3: a provider replying "  Pasta recipe...  " on the eggs
conversation yields the sent sequence plus the trimmed assistant message. -/
theorem C3_appends_trimmed_reply_witness :
    get_agent_response ok_provider empty_env [eggs_message] =
      Except.ok (current_messages [eggs_message] ++
        [Message.mk "assistant" (py_strip "  Pasta recipe...  ")]) :=
  (C3_appends_trimmed_reply ok_provider empty_env [eggs_message]
    (ModelResponse.mk
      [CompletionChoice.mk (CompletionMessage.mk (some "  Pasta recipe...  "))])
    (CompletionChoice.mk (CompletionMessage.mk (some "  Pasta recipe...  ")))
    [] "  Pasta recipe...  " rfl rfl rfl).1

/-- C4: for every conversation, if the provider call raises, then
`get_agent_response` fails with the propagated provider error and returns no
conversation: the result is exactly the error of the single provider call at
the configured model, with no retry and no fallback. -/
theorem C4_provider_failure_propagates {ε : Type}
    (llm_completion : String → List Message → Except ε ModelResponse)
    (env : String → Option String) (messages : List Message) (e : ε)
    (herr : llm_completion (MODEL_NAME env) (current_messages messages) =
      Except.error e) :
    get_agent_response llm_completion env messages =
      Except.error (AgentError.provider e) := by
  rw [get_agent_response, herr]
  rfl

/-- Witness for C4 with an always-failing provider on the empty conversation. -/
theorem C4_provider_failure_propagates_witness :
    get_agent_response failing_provider empty_env [] =
      Except.error (AgentError.provider "connection error") :=
  C4_provider_failure_propagates failing_provider empty_env [] "connection error" rfl


/-- A provider returning a well-formed ok envelope whose first choice misses
the reply content (Python: `content` is None, so `.strip()` raises
AttributeError). -/
def malformed_provider : String → List Message → Except String ModelResponse :=
  fun _ _ =>
    Except.ok (ModelResponse.mk [CompletionChoice.mk (CompletionMessage.mk none)])

/-- C5 counterexample: with a reply missing the expected content, on the empty
conversation, `get_agent_response` fails with the extraction error, which does
not carry a diagnostic from the provider — not with a provider error. -/
theorem C5_counterexample :
    get_agent_response malformed_provider empty_env [] =
      Except.error AgentError.malformedResponse ∧
    carries_provider_error (get_agent_response malformed_provider empty_env []) =
      false :=
  ⟨rfl, rfl⟩

/-- C5 (amended): when the provider call itself raises, `get_agent_response`
fails with that error, carrying the diagnostic of the provider; when the
provider returns a malformed response missing the expected reply content (no
choice, or content absent), it fails with the extraction error, which carries
no provider diagnostic. -/
theorem C5_failure_taxonomy {ε : Type}
    (llm_completion : String → List Message → Except ε ModelResponse)
    (env : String → Option String) (messages : List Message) :
    (∀ e, llm_completion (MODEL_NAME env) (current_messages messages) =
        Except.error e →
      get_agent_response llm_completion env messages =
        Except.error (AgentError.provider e)) ∧
    (∀ completion,
      llm_completion (MODEL_NAME env) (current_messages messages) =
        Except.ok completion →
      (completion.choices = [] ∨
        ∃ choice rest, completion.choices = choice :: rest ∧
          choice.message.content = none) →
      get_agent_response llm_completion env messages =
        Except.error AgentError.malformedResponse ∧
      carries_provider_error (get_agent_response llm_completion env messages) =
        false) := by
  constructor
  · intro e herr
    rw [get_agent_response, herr]
    rfl
  · intro completion hok hmal
    have hres : get_agent_response llm_completion env messages =
        Except.error AgentError.malformedResponse := by
      rw [get_agent_response, hok]
      rcases hmal with hnil | ⟨choice, rest, hch, hct⟩
      · simp [handle_completion, hnil]
      · simp [handle_completion, hch, hct]
    exact ⟨hres, by rw [hres]; rfl⟩

/-- Witness for the amended C5, on the malformed-reply branch with a non-empty
conversation. -/
theorem C5_failure_taxonomy_witness :
    get_agent_response malformed_provider empty_env [eggs_message] =
      Except.error AgentError.malformedResponse ∧
    carries_provider_error
        (get_agent_response malformed_provider empty_env [eggs_message]) =
      false :=
  (C5_failure_taxonomy malformed_provider empty_env [eggs_message]).2
    (ModelResponse.mk [CompletionChoice.mk (CompletionMessage.mk none)]) rfl
    (Or.inr ⟨CompletionChoice.mk (CompletionMessage.mk none), [], rfl, rfl⟩)

/-- C6: for every conversation, the processed sequence is non-empty, its first
element has role "system", and it is either the caller sequence used unchanged
or the default system message prepended to the caller sequence. -/
theorem C6_processed_starts_with_system (messages : List Message) :
    current_messages messages ≠ [] ∧
    ((current_messages messages).headD (Message.mk "" "")).role = "system" ∧
    (current_messages messages = messages ∨
      current_messages messages = system_message :: messages) := by
  rcases messages with _ | ⟨m, ms⟩
  · exact ⟨List.cons_ne_nil system_message [], rfl, Or.inr rfl⟩
  · by_cases hm : m.role = "system"
    · have hc : current_messages (m :: ms) = m :: ms := by
        simp [current_messages, needs_system_prompt, hm]
      rw [hc]
      exact ⟨List.cons_ne_nil m ms, hm, Or.inl rfl⟩
    · have hc : current_messages (m :: ms) = system_message :: m :: ms := by
        simp [current_messages, needs_system_prompt, hm]
      rw [hc]
      exact ⟨List.cons_ne_nil system_message (m :: ms), rfl, Or.inr rfl⟩

/-- Witness for C6 on a conversation starting with a user message. -/
theorem C6_processed_starts_with_system_witness :
    current_messages [eggs_message] ≠ [] ∧
    ((current_messages [eggs_message]).headD (Message.mk "" "")).role = "system" ∧
    (current_messages [eggs_message] = [eggs_message] ∨
      current_messages [eggs_message] = system_message :: [eggs_message]) :=
  C6_processed_starts_with_system [eggs_message]

/-- C7: whenever `get_agent_response` returns a conversation, it is the caller
conversation — unchanged, in order, nothing dropped — with the assistant reply
appended, possibly preceded by the default system message in first position. -/
theorem C7_originals_preserved {ε : Type}
    (llm_completion : String → List Message → Except ε ModelResponse)
    (env : String → Option String) (messages result : List Message)
    (hok : get_agent_response llm_completion env messages = Except.ok result) :
    ∃ reply,
      result = messages ++ [Message.mk "assistant" reply] ∨
      result = system_message :: (messages ++ [Message.mk "assistant" reply]) := by
  rw [get_agent_response] at hok
  cases hf : llm_completion (MODEL_NAME env) (current_messages messages) with
  | error e =>
    rw [hf] at hok
    simp [handle_completion] at hok
  | ok completion =>
    rw [hf] at hok
    cases hch : completion.choices with
    | nil =>
      simp [handle_completion, hch] at hok
    | cons choice rest =>
      cases hct : choice.message.content with
      | none =>
        simp [handle_completion, hch, hct] at hok
      | some c =>
        simp [handle_completion, hch, hct] at hok
        subst hok
        refine ⟨py_strip c, ?_⟩
        by_cases hn : needs_system_prompt messages
        · exact Or.inr (by simp [current_messages, hn])
        · exact Or.inl (by simp [current_messages, hn])

/-- Witness for C7: with the concrete padded-reply provider on the eggs
conversation, the returned list is the system message, the original user
message, then the trimmed assistant reply. -/
theorem C7_originals_preserved_witness :
    ∃ reply,
      current_messages [eggs_message] ++
          [Message.mk "assistant" (py_strip "  Pasta recipe...  ")] =
        [eggs_message] ++ [Message.mk "assistant" reply] ∨
      current_messages [eggs_message] ++
          [Message.mk "assistant" (py_strip "  Pasta recipe...  ")] =
        system_message :: ([eggs_message] ++ [Message.mk "assistant" reply]) :=
  C7_originals_preserved ok_provider empty_env [eggs_message]
    (current_messages [eggs_message] ++
      [Message.mk "assistant" (py_strip "  Pasta recipe...  ")]) rfl

/-- C8: model-identifier resolution: it falls back to "gpt-4o-mini" when the
MODEL_NAME variable is unset, equals the configured value when set, and on
every call the resolved identifier is exactly the one handed to the provider
together with the processed message sequence. -/
theorem C8_model_name_resolution :
    (∀ env : String → Option String, env "MODEL_NAME" = none →
      MODEL_NAME env = "gpt-4o-mini") ∧
    (∀ (env : String → Option String) (v : String), env "MODEL_NAME" = some v →
      MODEL_NAME env = v) ∧
    (∀ (ε : Type) (llm_completion : String → List Message → Except ε ModelResponse)
        (env : String → Option String) (messages : List Message),
      get_agent_response llm_completion env messages =
        handle_completion (current_messages messages)
          (llm_completion (MODEL_NAME env) (current_messages messages))) := by
  refine ⟨?_, ?_, ?_⟩
  · intro env h
    unfold MODEL_NAME
    rw [h]
    rfl
  · intro env v h
    unfold MODEL_NAME
    rw [h]
    rfl
  · intro ε llm_completion env messages
    rfl

/-- Witness for C8 on the empty environment. -/
theorem C8_model_name_resolution_witness :
    MODEL_NAME empty_env = "gpt-4o-mini" :=
  C8_model_name_resolution.1 empty_env rfl


/-- C9: `get_agent_response` never mutates the list object the caller passed
in, nor any other existing list object: at the heap level the normalized and
the returned sequences are fresh allocations (Python `+` builds new lists), so
after a successful call every reference that was valid before dereferences to
exactly the list it held before — in particular the caller input. -/
theorem C9_no_mutation_of_input {ε : Type}
    (llm_completion : String → List Message → Except ε ModelResponse)
    (env : String → Option String) (h : PyHeap) (messagesRef : Nat)
    (hfin : PyHeap) (resultRef : Nat)
    (hok : get_agent_response_heap llm_completion env h messagesRef =
      Except.ok (hfin, resultRef)) :
    ∀ r, r < h.lists.length → hfin.get r = h.get r := by
  intro r hr
  rw [get_agent_response_heap] at hok
  by_cases hn : needs_system_prompt (h.get messagesRef) = true
  · rw [if_pos hn] at hok
    split at hok
    · exact (Except.noConfusion hok)
    · split at hok
      · exact (Except.noConfusion hok)
      · split at hok
        · exact (Except.noConfusion hok)
        · simp only [PyHeap.alloc, Except.ok.injEq, Prod.mk.injEq] at hok
          obtain ⟨hheap, -⟩ := hok
          rw [← hheap]
          simp only [PyHeap.get]
          rw [List.getD_append _ _ _ _
            (by simp only [List.length_append, List.length_cons,
              List.length_nil]; omega)]
          exact List.getD_append _ _ _ _ hr
  · rw [if_neg hn] at hok
    split at hok
    · exact (Except.noConfusion hok)
    · split at hok
      · exact (Except.noConfusion hok)
      · split at hok
        · exact (Except.noConfusion hok)
        · simp only [PyHeap.alloc, Except.ok.injEq, Prod.mk.injEq] at hok
          obtain ⟨hheap, -⟩ := hok
          rw [← hheap]
          simp only [PyHeap.get]
          exact List.getD_append _ _ _ _ hr

/-- Witness for C9: a one-object heap holding the eggs conversation; after the
call with the padded-reply provider, reference 0 still holds it. -/
theorem C9_no_mutation_of_input_witness :
    PyHeap.get
        (PyHeap.mk [[eggs_message],
          [system_message, eggs_message],
          [system_message, eggs_message,
            Message.mk "assistant" (py_strip "  Pasta recipe...  ")]]) 0 =
      PyHeap.get (PyHeap.mk [[eggs_message]]) 0 :=
  C9_no_mutation_of_input ok_provider empty_env (PyHeap.mk [[eggs_message]]) 0
    (PyHeap.mk [[eggs_message],
      [system_message, eggs_message],
      [system_message, eggs_message,
        Message.mk "assistant" (py_strip "  Pasta recipe...  ")]]) 2 rfl 0
    (by simp)

/-- A provider whose reply content is whitespace only. -/
def blank_provider : String → List Message → Except String ModelResponse :=
  fun _ _ =>
    Except.ok (ModelResponse.mk
      [CompletionChoice.mk (CompletionMessage.mk (some "  \n "))])

/-- C10: a reply whose content strips to the empty string is not an error:
`get_agent_response` succeeds and appends an assistant message whose content
is the empty string. -/
theorem C10_blank_reply_succeeds {ε : Type}
    (llm_completion : String → List Message → Except ε ModelResponse)
    (env : String → Option String) (messages : List Message)
    (completion : ModelResponse) (choice : CompletionChoice)
    (rest : List CompletionChoice) (c : String)
    (hok : llm_completion (MODEL_NAME env) (current_messages messages) =
      Except.ok completion)
    (hchoices : completion.choices = choice :: rest)
    (hcontent : choice.message.content = some c)
    (hblank : py_strip c = "") :
    get_agent_response llm_completion env messages =
      Except.ok (current_messages messages ++ [Message.mk "assistant" ""]) := by
  rw [get_agent_response, hok]
  simp [handle_completion, hchoices, hcontent, hblank]

/-- Witness for C10: the whitespace-only reply "  \n " yields an appended
assistant message with empty content on the eggs conversation. -/
theorem C10_blank_reply_succeeds_witness :
    get_agent_response blank_provider empty_env [eggs_message] =
      Except.ok (current_messages [eggs_message] ++ [Message.mk "assistant" ""]) :=
  C10_blank_reply_succeeds blank_provider empty_env [eggs_message]
    (ModelResponse.mk [CompletionChoice.mk (CompletionMessage.mk (some "  \n "))])
    (CompletionChoice.mk (CompletionMessage.mk (some "  \n "))) [] "  \n "
    rfl rfl rfl (by decide)

